import Mathlib

/-!
Shallow embedding of the `sweets` shared runtime library:
the structured `Error` model of `src/common/src/error.rs` and the
`WhereBuilder` SQL predicate builder (its caller is
`src/common/src/infra/event/postgres_event_repository.rs`).

Rust `HashMap<String, String>` is modelled as an association list with
unique keys: `ctxInsert` mirrors `HashMap::insert` (overwrite when the
key is present, append otherwise) and `ctxExtend` mirrors
`HashMap::extend` (insert every entry of the other map).
-/

/-- Model of `HashMap::insert` on a unique-key association list:
overwrite the value when the key is present, append otherwise. -/
def ctxInsert (m : List (String × String)) (k v : String) :
    List (String × String) :=
  if m.any (fun p => p.1 == k) then
    m.map (fun p => if p.1 == k then (k, v) else p)
  else m ++ [(k, v)]

/-- Model of `HashMap::extend`: insert every entry of `other`. -/
def ctxExtend (m other : List (String × String)) :
    List (String × String) :=
  other.foldl (fun acc p => ctxInsert acc p.1 p.2) m

/-- The `ErrorKind` enum of `error.rs`: `Internal` and `Application`. -/
inductive ErrorKind where
  | Internal : ErrorKind
  | Application : ErrorKind
deriving DecidableEq, Repr

/-- The `Error` struct of `error.rs`. The `cause` field is the
`Option<Box<Error>>` recursive owned predecessor, hence an inductive
rather than a structure. `status: Option<u16>` is modelled as
`Option Nat`; `context` as a unique-key association list. -/
inductive Error where
  | mk : ErrorKind → String → String → Option Nat → Option String →
         List (String × String) → Option Error → Error
deriving Repr

def Error.kind : Error → ErrorKind
  | .mk k _ _ _ _ _ _ => k

def Error.path : Error → String
  | .mk _ p _ _ _ _ _ => p

def Error.code : Error → String
  | .mk _ _ c _ _ _ _ => c

def Error.status : Error → Option Nat
  | .mk _ _ _ s _ _ _ => s

def Error.message : Error → Option String
  | .mk _ _ _ _ m _ _ => m

def Error.context : Error → List (String × String)
  | .mk _ _ _ _ _ ctx _ => ctx

def Error.cause : Error → Option Error
  | .mk _ _ _ _ _ _ c => c

/-- `Error::new(path, code)`: Application-kind, nothing else set. -/
def Error.new (path code : String) : Error :=
  .mk .Application path code none none [] none

/-- `Error::internal(path, code)`: Internal-kind, nothing else set. -/
def Error.internal (path code : String) : Error :=
  .mk .Internal path code none none [] none

def Error.set_path : Error → String → Error
  | .mk k _ c s m ctx cs, p => .mk k p c s m ctx cs

def Error.set_code : Error → String → Error
  | .mk k p _ s m ctx cs, c => .mk k p c s m ctx cs

def Error.set_status : Error → Nat → Error
  | .mk k p c _ m ctx cs, s => .mk k p c (some s) m ctx cs

def Error.set_message : Error → String → Error
  | .mk k p c s _ ctx cs, m => .mk k p c s (some m) ctx cs

/-- `Error::add_context(k, v)`: `self.context.insert(k, v)`. -/
def Error.add_context : Error → String → String → Error
  | .mk kd p c s m ctx cs, k, v => .mk kd p c s m (ctxInsert ctx k v) cs

/-- `Error::wrap(err)`: set the cause to `err`. -/
def Error.wrap : Error → Error → Error
  | .mk k p c s m ctx _, err => .mk k p c s m ctx (some err)

/-- The cause synthesized by `wrap_raw`/`wrap_str`: Internal kind, empty
path, code `"raw"`, no status, message = the foreign value's textual
rendering, no context, no cause. -/
def rawError (msg : String) : Error :=
  .mk .Internal "" "raw" none (some msg) [] none

/-- `Error::wrap_raw(err)`: the foreign `E: error::Error` value is
modelled by its `to_string()` rendering `msg`. -/
def Error.wrap_raw (e : Error) (msg : String) : Error :=
  e.wrap (rawError msg)

/-- `Error::wrap_str(s)`: the foreign `S: ToString` value is modelled by
its `to_string()` rendering `msg`. -/
def Error.wrap_str (e : Error) (msg : String) : Error :=
  e.wrap (rawError msg)

/-- `Error::merge(err)`: `self.add_context(err.path(), err.code())`,
then `self.context.extend(err.context)`. -/
def Error.merge (e err : Error) : Error :=
  match e.add_context err.path err.code with
  | .mk k p c s m ctx cs => .mk k p c s m (ctxExtend ctx err.context) cs

/-- The `impl cmp::PartialEq for Error`: equality compares only
`code`, `path` and `status`. -/
def Error.eqv (a b : Error) : Bool :=
  a.code == b.code && a.path == b.path && a.status == b.status

/-- `Error::not_found(entity)`. -/
def Error.not_found (entity : String) : Error :=
  (Error.new entity "not_found").set_status 404

/-- `Error::unauthorized()`. -/
def Error.unauthorized : Error :=
  (Error.new "authorization" "unauthorized").set_status 401

/-- `Error::forbidden(path)`. -/
def Error.forbidden (path : String) : Error :=
  (Error.new path "forbidden").set_status 403

/-- `Error::bad_format(path)`. -/
def Error.bad_format (path : String) : Error :=
  (Error.new path "bad_format").set_status 400

/-- `Error::invalid(path)`. -/
def Error.invalid (path : String) : Error :=
  (Error.new path "invalid").set_status 422

/-- `Error::conflict(path)`. -/
def Error.conflict (path : String) : Error :=
  (Error.new path "conflict").set_status 409

/-- `Error::not_owner(entity)`. -/
def Error.not_owner (entity : String) : Error :=
  (Error.new entity "not_owner").set_status 401

/-- The foreign `uni_sms::UniMessageErrorCode`: the `Invalid` variant is
the one `error.rs` matches on; every other variant is modelled by
`other` carrying its `to_string()` rendering. -/
inductive UniMessageErrorCode where
  | Invalid : UniMessageErrorCode
  | other : String → UniMessageErrorCode
deriving DecidableEq, Repr

/-- Textual rendering (`to_string`) of a foreign message-provider code. -/
def UniMessageErrorCode.toString : UniMessageErrorCode → String
  | .Invalid => "invalid input"
  | .other s => s

/-- The foreign `uni_sms::UniMessageError`: the `(code, status, message)`
triple that the conversion in `error.rs` reads. -/
structure UniMessageError where
  code : UniMessageErrorCode
  status : Nat
  message : String

/-- The `impl From<UniMessageError> for Error` of `error.rs`. -/
def Error.fromUniMessage (err : UniMessageError) : Error :=
  match err.code with
  | .Invalid =>
      ((Error.new "sms" "invalid").set_status err.status).set_message
        err.message
  | _ =>
      .mk .Internal "" err.code.toString (some err.status)
        (some err.message) [] none

/-- The `impl From<serde_json::Error> for Error` of `error.rs`; the
foreign `serde_json::Error` is modelled by its textual rendering. -/
def Error.fromSerdeJson (msg : String) : Error :=
  (Error.new "json" "error").wrap_raw msg

/-- Modelled from the spec: the `WhereBuilder` accumulator of
`crate::sql::where_builder` (the module itself is not under `src/`;
only its caller `postgres_event_repository.rs` is): an ordered sequence
of accepted fragment templates and the aligned ordered sequence of
bound parameter values. -/
structure WhereBuilder (α : Type) where
  fragments : List String
  params : List α

/-- Modelled from the spec: `WhereBuilder::new()`, the empty builder. -/
def WhereBuilder.new {α : Type} : WhereBuilder α :=
  { fragments := [], params := [] }

/-- Modelled from the spec: `add_param_opt(template, value, condition)`
accepts the fragment and records the value only when `condition` is
true; otherwise the builder is unchanged. -/
def WhereBuilder.add_param_opt {α : Type} (b : WhereBuilder α)
    (template : String) (value : α) (condition : Bool) : WhereBuilder α :=
  if condition then
    { fragments := b.fragments ++ [template],
      params := b.params ++ [value] }
  else b

/-- Modelled from the spec: replace each occurrence of the two-character
placeholder marker `$$` in a character sequence by `repl` (every
fragment contains exactly one marker). -/
def substMarker (repl : String) : List Char → List Char
  | [] => []
  | '$' :: '$' :: cs => repl.data ++ substMarker repl cs
  | c :: cs => c :: substMarker repl cs

/-- Modelled from the spec: replace the placeholder marker `$$` of a
fragment template by `repl`. -/
def replacePlaceholder (t repl : String) : String :=
  ⟨substMarker repl t.data⟩

/-- Modelled from the spec: rewrite each accepted fragment in acceptance
order, replacing its placeholder marker `$$` with the
positional-parameter token `$i` where `i` is 1 + its position among the
accepted fragments. -/
def renumber : Nat → List String → List String
  | _, [] => []
  | i, t :: ts =>
      replacePlaceholder t ("$" ++ Nat.repr i) :: renumber (i + 1) ts

/-- Modelled from the spec: join rewritten fragments with `" AND "`;
the empty list yields the empty string. -/
def joinAnd : List String → String
  | [] => ""
  | [t] => t
  | t :: ts => t ++ " AND " ++ joinAnd ts

/-- Modelled from the spec: `build()` joins the rewritten accepted
fragments with `" AND "` (the empty string when none were accepted) and
returns the bound values in acceptance order. -/
def WhereBuilder.build {α : Type} (b : WhereBuilder α) :
    String × List α :=
  (joinAnd (renumber 1 b.fragments), b.params)

/-- C1: `merge(other)` records the breadcrumb `other.path -> other.code`
and then copies `other`'s context entries (last write wins), while
`other`'s cause, kind, status, and message are not transferred; on the
concrete three-error scenario the final context has exactly 6 entries:
the two breadcrumbs and the four leaf entries, collisions resolved
last-write-wins. -/
theorem merge_breadcrumb_scenario :
    (∀ a b : Error, (a.merge b).cause = a.cause ∧
      (a.merge b).kind = a.kind ∧ (a.merge b).status = a.status ∧
      (a.merge b).message = a.message) ∧
    (let err1 := ((Error.internal "err1" "err1").add_context "e1-key1"
        "value1").add_context "e1-key2" "value2"
     let err2 := (((Error.internal "err2" "err2").add_context "e2-key"
        "value").merge err1)
     let err3 := ((((Error.new "err3" "err3").add_context "e1-key1"
        "value").add_context "e3-key" "value").merge err2)
     err3.context.length = 6 ∧
       err3.context.lookup "err1" = some "err1" ∧
       err3.context.lookup "err2" = some "err2" ∧
       err3.context.lookup "e1-key1" = some "value1" ∧
       err3.context.lookup "e1-key2" = some "value2" ∧
       err3.context.lookup "e2-key" = some "value" ∧
       err3.context.lookup "e3-key" = some "value") := by
  constructor
  · intro a b
    cases a; cases b
    simp [Error.merge, Error.add_context, Error.kind, Error.status,
      Error.message, Error.cause]
  · decide

/-- C2: with three `add_param_opt` calls under conditions
(true, false, true), `build()` joins the two accepted fragments with
`" AND "`, renumbering their placeholders to positional tokens `$1` and
`$2` (not `$1` and `$3`), and returns the two accepted values in
acceptance order. -/
theorem where_builder_conditional_renumbering (α : Type)
    (t1 t2 t3 : String) (v1 v2 v3 : α) :
    ((((WhereBuilder.new).add_param_opt t1 v1 true).add_param_opt
      t2 v2 false).add_param_opt t3 v3 true).build
    = (replacePlaceholder t1 "$1" ++ " AND " ++ replacePlaceholder t3 "$2",
       [v1, v3]) := by
  rfl

/-- C3: `Error` equality (the `PartialEq` impl) holds exactly when
`code`, `path` and `status` all agree; kind, message, context and cause
play no role. -/
theorem error_eq_code_path_status (a b : Error) :
    a.eqv b = true ↔
      (a.code = b.code ∧ a.path = b.path ∧ a.status = b.status) := by
  simp [Error.eqv, and_assoc]

/-- C4: `wrap_raw` (and `wrap_str`) set the cause to a synthesized
Internal-kind error with code `"raw"`, empty path, no status, message =
the foreign value's textual rendering, no context and no cause, leaving
every other field of the receiver unchanged. -/
theorem error_wrap_raw_spec (e : Error) (msg : String) :
    (e.wrap_raw msg).cause
        = some (Error.mk .Internal "" "raw" none (some msg) [] none) ∧
    (e.wrap_raw msg).kind = e.kind ∧ (e.wrap_raw msg).path = e.path ∧
    (e.wrap_raw msg).code = e.code ∧
    (e.wrap_raw msg).status = e.status ∧
    (e.wrap_raw msg).message = e.message ∧
    (e.wrap_raw msg).context = e.context ∧
    (e.wrap_str msg).cause
        = some (Error.mk .Internal "" "raw" none (some msg) [] none) ∧
    (e.wrap_str msg).kind = e.kind ∧ (e.wrap_str msg).path = e.path ∧
    (e.wrap_str msg).code = e.code ∧
    (e.wrap_str msg).status = e.status ∧
    (e.wrap_str msg).message = e.message ∧
    (e.wrap_str msg).context = e.context := by
  cases e
  simp [Error.wrap_raw, Error.wrap_str, Error.wrap, rawError,
      Error.kind, Error.path, Error.code, Error.status, Error.message,
      Error.context, Error.cause]

/-- C5: the messaging-provider conversion maps the foreign
`Invalid` code to an Application error with path `"sms"`, code
`"invalid"`, carrying the foreign status and message; any other foreign
code maps to an Internal error whose code is the foreign code's textual
form, carrying the foreign status and message, with no context and no
cause. -/
theorem error_from_uni_message_spec (status : Nat) (message s : String) :
    Error.fromUniMessage ⟨.Invalid, status, message⟩
      = Error.mk .Application "sms" "invalid" (some status)
          (some message) [] none ∧
    Error.fromUniMessage ⟨.other s, status, message⟩
      = Error.mk .Internal "" s (some status) (some message) [] none := by
  constructor <;> rfl

/-- C6: the serialization-failure conversion yields an Application-kind
error (inherited from the `new` factory) with path `"json"`, code
`"error"`, wrapping the raw foreign error as its cause. -/
theorem error_from_serde_json_spec (msg : String) :
    (Error.fromSerdeJson msg).kind = .Application ∧
    (Error.fromSerdeJson msg).path = "json" ∧
    (Error.fromSerdeJson msg).code = "error" ∧
    (Error.fromSerdeJson msg).cause = some (rawError msg) := by
  refine ⟨rfl, rfl, rfl, rfl⟩

/-- C7: each named convenience factory produces an Application-kind
error with the documented path, code and status pair. -/
theorem error_convenience_factories (entity p : String) :
    (Error.not_found entity).kind = .Application ∧
    (Error.not_found entity).path = entity ∧
    (Error.not_found entity).code = "not_found" ∧
    (Error.not_found entity).status = some 404 ∧
    Error.unauthorized.kind = .Application ∧
    Error.unauthorized.path = "authorization" ∧
    Error.unauthorized.code = "unauthorized" ∧
    Error.unauthorized.status = some 401 ∧
    (Error.forbidden p).kind = .Application ∧
    (Error.forbidden p).path = p ∧
    (Error.forbidden p).code = "forbidden" ∧
    (Error.forbidden p).status = some 403 ∧
    (Error.bad_format p).kind = .Application ∧
    (Error.bad_format p).path = p ∧
    (Error.bad_format p).code = "bad_format" ∧
    (Error.bad_format p).status = some 400 ∧
    (Error.invalid p).kind = .Application ∧
    (Error.invalid p).path = p ∧
    (Error.invalid p).code = "invalid" ∧
    (Error.invalid p).status = some 422 ∧
    (Error.conflict p).kind = .Application ∧
    (Error.conflict p).path = p ∧
    (Error.conflict p).code = "conflict" ∧
    (Error.conflict p).status = some 409 ∧
    (Error.not_owner entity).kind = .Application ∧
    (Error.not_owner entity).path = entity ∧
    (Error.not_owner entity).code = "not_owner" ∧
    (Error.not_owner entity).status = some 401 := by
  simp [Error.not_found, Error.unauthorized, Error.forbidden,
    Error.bad_format, Error.invalid, Error.conflict, Error.not_owner,
    Error.new, Error.set_status, Error.kind, Error.path, Error.code,
    Error.status]

/-- C8: context keys are unique and a later `add_context` with a
duplicate key overwrites the earlier value: after inserting `k1`, `k2`,
then `k2` again (with `k1 ≠ k2`), the context has exactly 2 entries and
the entry at `k2` is the last value written. -/
theorem add_context_last_write_wins
    (path code k1 v1 k2 v2 v3 : String) (s : Nat) (h : k1 ≠ k2) :
    ((((((Error.new path code).set_status s).add_context k1 v1).add_context
      k2 v2).add_context k2 v3).context).length = 2 ∧
    ((((((Error.new path code).set_status s).add_context k1 v1).add_context
      k2 v2).add_context k2 v3).context).lookup k2 = some v3 := by
  simp [Error.new, Error.set_status, Error.add_context, Error.context,
    ctxInsert, List.lookup, h, Ne.symm h,
    show (k2 == k1) = false by simp [Ne.symm h]]

/-- Witness for C8 at concrete keys `"a" ≠ "b"`. -/
theorem add_context_last_write_wins_witness :
    ("a" : String) ≠ "b" ∧
    (((((((Error.new "p" "c").set_status 404).add_context "a"
      "v1").add_context "b" "v2").add_context "b" "v3").context).length = 2 ∧
    ((((((Error.new "p" "c").set_status 404).add_context "a"
      "v1").add_context "b" "v2").add_context "b" "v3").context).lookup "b"
      = some "v3") :=
  ⟨by decide,
   add_context_last_write_wins "p" "c" "a" "v1" "b" "v2" "v3" 404
     (by decide)⟩

/-- C9: with zero accepted fragments (the empty builder, or every
`add_param_opt` call under a false condition), `build()` returns the
empty clause string and the empty parameter sequence. -/
theorem where_builder_empty_build (α : Type) (l : List (String × α)) :
    (l.foldl (fun b p => b.add_param_opt p.1 p.2 false)
      WhereBuilder.new).build = ("", []) := by
  have h : l.foldl (fun b p => b.add_param_opt p.1 p.2 false)
      (WhereBuilder.new (α := α)) = WhereBuilder.new := by
    induction l with
    | nil => rfl
    | cons hd tl ih => simp [WhereBuilder.add_param_opt, ih]
  rw [h]
  rfl

/-- C10: `merge(other)` modifies only the receiver's context: kind,
path, code, status, message and cause are unchanged. -/
theorem merge_frame_effect (a b : Error) :
    (a.merge b).kind = a.kind ∧ (a.merge b).path = a.path ∧
    (a.merge b).code = a.code ∧ (a.merge b).status = a.status ∧
    (a.merge b).message = a.message ∧ (a.merge b).cause = a.cause := by
  cases a; cases b
  simp [Error.merge, Error.add_context, Error.kind, Error.path,
    Error.code, Error.status, Error.message, Error.cause]
